import Mathlib

/-!
Verification of the artifact-caching key/proof lifecycle manager of
`zk-proof-of-evm-execution` (files `src/real_prover.rs`,
`src/utils/halo2/real_prover.rs`, `src/main.rs`).

The repository code is glue around the external halo2 / snark-verifier
libraries: it caches setup parameters and circuit keys in memory and in
files, generates them on a cache miss, produces a proof, and verifies it.
We embed that control flow shallowly:

* the in-memory state of a `RealProver` becomes `ProverState`
  (same field names as the Rust struct);
* the artifact directory becomes an explicit association list `FS`;
  file paths are represented by the inductive `FPath`, whose constructors
  correspond one-to-one to the `format!` strings of the source
  (see `FPath.render`); the string scheme is injective on these shapes,
  so distinct constructors model distinct paths;
* each Rust method becomes a function in the state/exception monad `PM`;
  `Result::Err` propagation (`?`) becomes `PRes.err`, and
  `unwrap`/`expect` on a `None`/`Err` becomes `PRes.crash`;
* the opaque cryptographic primitives of the external libraries
  (`ParamsKZG::setup`, `keygen_vk`, `keygen_pk`, `create_proof`,
  `verify_proof`, the snark-verifier Yul pipeline) are modelled from the
  spec as deterministic functions, each marked `Modelled from the spec:`;
* generation events and file operations are recorded in an event trace
  (`Event`), the formal counterpart of the spec's "generation-counter
  test double"; this instrumentation only logs which branch ran and
  changes no behaviour.
-/

namespace ZkPox

/-- Field elements `Fr` are opaque to the glue code; we model them as `Nat`. -/
abbrev Fr := Nat

/-- Modelled from the spec: `ParamsKZG<Bn256>` setup parameters, the opaque
output of the external library.  `setup k seed` is the deterministic result of
`ParamsKZG::<Bn256>::setup(k, rng)` for an rng in state `seed` (the spec:
"deterministically generate new parameters from a seeded pseudo-random
source"); `verifierOf p` is `p.verifier_params()`, the verifier-side
restriction of general parameters `p`. -/
inductive ParamsKZG where
  | setup (degree : Nat) (seed : Nat)
  | verifierOf (p : ParamsKZG)
deriving DecidableEq, Repr

/-- Modelled from the spec: `general_params.verifier_params()` — the
verifier parameters derived from general parameters. -/
def ParamsKZG.verifier_params (p : ParamsKZG) : ParamsKZG :=
  ParamsKZG.verifierOf p

/-- A circuit instance as the glue code sees it: a name (what
`derive_circuit_name` returns), structural parameters (`circuit.params()`),
the public instance columns (`circuit.instance()`), and the private witness
content (unused by the cache logic, carried for fidelity). -/
structure Circuit where
  name : String
  shape : Nat
  inst : List (List Fr)
  wit : Nat
deriving DecidableEq, Repr

/-- Modelled from the spec: `derive_circuit_name` (in `src/utils`, not part
of the shown sources) derives the cache-key name from the circuit
descriptor. -/
def derive_circuit_name (c : Circuit) : String := c.name

/-- Modelled from the spec: a verifying key is cryptographic material
determined by the general parameters and the circuit shape it was generated
from (`keygen_vk(params, circuit)` is deterministic). -/
structure VerifyingKey where
  gp : ParamsKZG
  circ : Circuit
deriving DecidableEq, Repr

/-- Modelled from the spec: `keygen_vk(general_params, circuit)`. -/
def keygen_vk (gp : ParamsKZG) (c : Circuit) : VerifyingKey :=
  { gp := gp, circ := c }

/-- Modelled from the spec: a proving key is determined by the general
parameters, the verifying key it was generated from, and the circuit. -/
structure ProvingKey where
  gp : ParamsKZG
  vk : VerifyingKey
  circ : Circuit
deriving DecidableEq, Repr

/-- Modelled from the spec: `keygen_pk(general_params, vk, circuit)`. -/
def keygen_pk (gp : ParamsKZG) (vk : VerifyingKey) (c : Circuit) : ProvingKey :=
  { gp := gp, vk := vk, circ := c }

/-- Modelled from the spec: the serialized proof bytes.  A proof binds the
general parameters and proving key used to create it and the public instance
values it was created for; the verifier replays the transcript and accepts
exactly when these match its own artifacts. -/
structure ProofData where
  gp : ParamsKZG
  vk : VerifyingKey
  inst : List (List Fr)
deriving DecidableEq, Repr

/-- Modelled from the spec: `create_proof(general_params, pk, circuit,
instances, rng, transcript)` followed by `transcript.finalize()`.  The proof
embeds the parameters, the verifying key inside the proving key, and the
instance values. -/
def create_proof (gp : ParamsKZG) (pk : ProvingKey)
    (inst : List (List Fr)) (rng : Nat) : ProofData :=
  let _ := rng
  { gp := gp, vk := pk.vk, inst := inst }

/-- File paths inside the artifact directory.  Each constructor renders to
the exact `format!` string of the source (`FPath.render`); on these shapes
the rendering is injective, so the inductive is a faithful key type. -/
inductive FPath where
  | kzgGeneralParams (degree : Nat)
  | kzgVerifierParams (degree : Nat)
  | verifyingKey (name : String) (degree : Nat)
  | provingKey (name : String) (degree : Nat)
  | proofFile (name : String)
  | yulFile (name : String)
deriving DecidableEq, Repr

/-- The file-name scheme of the source, for reference:
`kzg_general_params_{k}`, `kzg_verifier_params_{k}`,
`{name}_verifying_key_{k}`, `{name}_proving_key_{k}`, `{name}_proof`,
`{name}_verifier.yul`. -/
def FPath.render : FPath → String
  | FPath.kzgGeneralParams k => "kzg_general_params_" ++ toString k
  | FPath.kzgVerifierParams k => "kzg_verifier_params_" ++ toString k
  | FPath.verifyingKey n k => n ++ "_verifying_key_" ++ toString k
  | FPath.provingKey n k => n ++ "_proving_key_" ++ toString k
  | FPath.proofFile n => n ++ "_proof"
  | FPath.yulFile n => n ++ "_verifier.yul"

/-- Contents of an artifact file.  Serialization is opaque to the glue code;
we store the deserialized value.  A `read_custom` / `read` on a file of the
wrong kind models a deserialization failure. -/
inductive FileData where
  | fParams (p : ParamsKZG)
  | fVK (k : VerifyingKey)
  | fPK (k : ProvingKey)
  | fProof (pf : ProofData)
  | fYul (s : String)
deriving DecidableEq, Repr

/-- The artifact directory: file contents plus the sets of paths on which
`File::create` / writing would fail with an I/O error (so that error
propagation can be stated).  `File::open` fails exactly on absent paths. -/
structure FS where
  files : List (FPath × FileData)
  failCreate : List FPath
  failWrite : List FPath
deriving DecidableEq, Repr

/-- Read a file: the most recent write to the path wins. -/
def FS.read (fs : FS) (p : FPath) : Option FileData :=
  (fs.files.find? (fun e => e.1 == p)).map (fun e => e.2)

/-- Write (or overwrite) a file. -/
def FS.writeFile (fs : FS) (p : FPath) (d : FileData) : FS :=
  { fs with files := (p, d) :: fs.files }

/-- Instrumentation: which generation branches ran and which file
operations were attempted, in order. -/
inductive Event where
  | openFile (p : FPath)
  | createFile (p : FPath)
  | writeFile (p : FPath)
  | mkdir
  | genGeneralParams
  | genVerifierParams
  | genVK
  | genPK
deriving DecidableEq, Repr

/-- Errors: the halo2 `Error` as the glue code can encounter it, extended
with the I/O errors that convert into it via `?`. -/
inductive Error where
  | ioCreate (p : FPath)
  | ioWrite (p : FPath)
  | deser (p : FPath)
  | verifyFailed
deriving DecidableEq, Repr

/-- The in-memory state of `RealProver` (same field names as the Rust
struct), together with the artifact directory and the event trace.
`rng` is the `ChaCha20Rng` state, identified by its seed: the source only
ever clones it, never advances it. -/
structure ProverState where
  circuit : Circuit
  degree : Nat
  dir_path : String
  rng : Nat
  general_params : Option ParamsKZG
  verifier_params : Option ParamsKZG
  circuit_proving_key : Option ProvingKey
  circuit_verifying_key : Option VerifyingKey
  fs : FS
  events : List Event
deriving DecidableEq, Repr

/-- Result of running a prover method: normal return, a propagated
`Result::Err` (state reflects the mutations made before the `?`), or a
process abort from `unwrap` / `expect` on a missing value. -/
inductive PRes (α : Type) where
  | ok (a : α) (s : ProverState)
  | err (e : Error) (s : ProverState)
  | crash (msg : String)
deriving DecidableEq, Repr

/-- The state/exception monad the methods run in. -/
def PM (α : Type) : Type := ProverState → PRes α

instance : Monad PM where
  pure a := fun s => PRes.ok a s
  bind x f := fun s =>
    match x s with
    | PRes.ok a s' => f a s'
    | PRes.err e s' => PRes.err e s'
    | PRes.crash m => PRes.crash m

def getS : PM ProverState := fun s => PRes.ok s s

def modifyS (f : ProverState → ProverState) : PM Unit :=
  fun s => PRes.ok () (f s)

def throwE {α : Type} (e : Error) : PM α := fun s => PRes.err e s

def crashWith {α : Type} (msg : String) : PM α := fun _ => PRes.crash msg

/-- Rust `unwrap` / `ok_or(..).unwrap()` on an `Option`: crash when `none`. -/
def unwrapO {α : Type} (o : Option α) (msg : String) : PM α :=
  match o with
  | some a => pure a
  | none => crashWith msg

def recordEvent (e : Event) : PM Unit :=
  modifyS fun s => { s with events := s.events ++ [e] }

/-- Rust `File::open`: returns the contents, or `none` when the open fails
(the source discards the error value: `Err(_)`). -/
def fileOpen (p : FPath) : PM (Option FileData) := fun s =>
  PRes.ok (s.fs.read p) { s with events := s.events ++ [Event.openFile p] }

/-- Rust `File::create`: errs on the configured failing paths. -/
def fileCreate (p : FPath) : PM Unit := fun s =>
  if p ∈ s.fs.failCreate then
    PRes.err (Error.ioCreate p) { s with events := s.events ++ [Event.createFile p] }
  else
    PRes.ok () { s with events := s.events ++ [Event.createFile p] }

/-- Rust `write_custom` / `write` / `write_all` on a created file. -/
def fileWrite (p : FPath) (d : FileData) : PM Unit := fun s =>
  if p ∈ s.fs.failWrite then
    PRes.err (Error.ioWrite p) { s with events := s.events ++ [Event.writeFile p] }
  else
    PRes.ok ()
      { s with fs := s.fs.writeFile p d, events := s.events ++ [Event.writeFile p] }

/-- Library `ParamsKZG::read_custom` on opened file contents; the `?` in the source
propagates a deserialization failure as an error. -/
def read_params_custom (p : FPath) (d : FileData) : PM ParamsKZG :=
  match d with
  | FileData.fParams q => pure q
  | _ => throwE (Error.deser p)

/-- Library `VerifyingKey::read::<..>(..).unwrap()`: crash on malformed contents. -/
def read_vk_unwrap (d : FileData) : PM VerifyingKey :=
  match d with
  | FileData.fVK k => pure k
  | _ => crashWith "called Result::unwrap on an Err value"

/-- Library `ProvingKey::read::<..>(..).unwrap()`: crash on malformed contents. -/
def read_pk_unwrap (d : FileData) : PM ProvingKey :=
  match d with
  | FileData.fPK k => pure k
  | _ => crashWith "called Result::unwrap on an Err value"

/-- Method `ensure_dir_exists`: `create_dir_all(..).unwrap()`.  Directory creation
has no observable effect on the file map; we record the attempt. -/
def ensure_dir_exists : PM Unit := recordEvent Event.mkdir

namespace RealProver

/-- Method `RealProver::set_general_params` (src/real_prover.rs:134-165, identical
logic in src/utils/halo2/real_prover.rs:115-146): override wins; else
in-memory cache; else read the canonical file; else generate from the seeded
rng, persist, cache. -/
def set_general_params (params_override : Option ParamsKZG) : PM Unit := do
  if params_override.isSome then
    modifyS fun s => { s with general_params := params_override }
    return
  let s0 ← getS
  if s0.general_params.isSome then
    return
  ensure_dir_exists
  let s ← getS
  let path := FPath.kzgGeneralParams s.degree
  match ← fileOpen path with
  | some d =>
      let p ← read_params_custom path d
      modifyS fun s => { s with general_params := some p }
  | none =>
      let general_params := ParamsKZG.setup s.degree s.rng
      recordEvent Event.genGeneralParams
      fileCreate path
      fileWrite path (FileData.fParams general_params)
      modifyS fun s => { s with general_params := some general_params }

/-- Method `RealProver::set_verifier_params` (src/real_prover.rs:167-199, identical
logic in src/utils/halo2/real_prover.rs:148-180).  The generation branch
does `self.general_params.clone().unwrap()`: it crashes when no general
parameters are in memory. -/
def set_verifier_params (params_override : Option ParamsKZG) : PM Unit := do
  if params_override.isSome then
    modifyS fun s => { s with verifier_params := params_override }
    return
  let s0 ← getS
  if s0.verifier_params.isSome then
    return
  ensure_dir_exists
  let s ← getS
  let path := FPath.kzgVerifierParams s.degree
  match ← fileOpen path with
  | some d =>
      let p ← read_params_custom path d
      modifyS fun s => { s with verifier_params := some p }
  | none =>
      let general_params ← unwrapO s.general_params
        "called Option::unwrap on a None value"
      let verifier_params := general_params.verifier_params
      recordEvent Event.genVerifierParams
      fileCreate path
      fileWrite path (FileData.fParams verifier_params)
      modifyS fun s => { s with verifier_params := some verifier_params }

/-- Method `RealProver::set_circuit_params` (src/real_prover.rs:201-272; the copy
in src/utils/halo2/real_prover.rs:182-260 has the same control flow).
Order of the source: (1) return if both keys are in memory; (2) apply the
overrides if both are given; (3) verifying key: read the canonical file,
else generate with `keygen_vk(general_params.unwrap(), circuit)` and
persist; (4) `ensure_dir_exists`; (5) proving key: read the canonical file,
else generate with `keygen_pk(general_params.unwrap(), vk.unwrap(),
circuit)` and persist. -/
def set_circuit_params (circuit_proving_key_override : Option ProvingKey)
    (circuit_verifying_key_override : Option VerifyingKey) : PM Unit := do
  let s0 ← getS
  if s0.circuit_proving_key.isSome && s0.circuit_verifying_key.isSome then
    return
  if circuit_proving_key_override.isSome &&
      circuit_verifying_key_override.isSome then
    modifyS fun s =>
      { s with circuit_proving_key := circuit_proving_key_override,
               circuit_verifying_key := circuit_verifying_key_override }
    return
  let s ← getS
  let verifying_key_path :=
    FPath.verifyingKey (derive_circuit_name s.circuit) s.degree
  match ← fileOpen verifying_key_path with
  | some d =>
      let vk ← read_vk_unwrap d
      modifyS fun s => { s with circuit_verifying_key := some vk }
  | none =>
      let gp ← unwrapO s.general_params "called Option::unwrap on a None value"
      let vk := keygen_vk gp s.circuit
      recordEvent Event.genVK
      fileCreate verifying_key_path
      fileWrite verifying_key_path (FileData.fVK vk)
      modifyS fun s => { s with circuit_verifying_key := some vk }
  ensure_dir_exists
  let s1 ← getS
  let proving_key_path :=
    FPath.provingKey (derive_circuit_name s1.circuit) s1.degree
  match ← fileOpen proving_key_path with
  | some d =>
      let pk ← read_pk_unwrap d
      modifyS fun s => { s with circuit_proving_key := some pk }
  | none =>
      let gp ← unwrapO s1.general_params "called Option::unwrap on a None value"
      let vk ← unwrapO s1.circuit_verifying_key
        "called Option::unwrap on a None value"
      let pk := keygen_pk gp vk s1.circuit
      recordEvent Event.genPK
      fileCreate proving_key_path
      fileWrite proving_key_path (FileData.fPK pk)
      modifyS fun s => { s with circuit_proving_key := some pk }

/-- Method `RealProver::load` (src/real_prover.rs:72-77). -/
def load : PM Unit := do
  set_general_params none
  set_verifier_params none
  set_circuit_params none none

/-- Method `RealProver::run` (src/real_prover.rs:79-112): load, extract instances,
create the proof with the seeded rng, optionally persist it. -/
def run (write_to_file : Bool) : PM (ProofData × List (List Fr)) := do
  load
  let s ← getS
  let instances := s.circuit.inst
  let gp ← unwrapO s.general_params "called Option::unwrap on a None value"
  let pk ← unwrapO s.circuit_proving_key "called Option::unwrap on a None value"
  let proof := create_proof gp pk instances s.rng
  if write_to_file then
    let proof_path := FPath.proofFile (derive_circuit_name s.circuit)
    fileCreate proof_path
    fileWrite proof_path (FileData.fProof proof)
  pure (proof, instances)

end RealProver

/-- The `RealVerifier` struct (src/real_prover.rs:279-286). -/
structure RealVerifierState where
  circuit_name : String
  dir_path : String
  num_instance : List Nat
  general_params : ParamsKZG
  verifier_params : ParamsKZG
  circuit_verifying_key : VerifyingKey
deriving DecidableEq, Repr

/-- Method `RealProver::verifier` (src/real_prover.rs:114-127): unwraps the three
cached artifacts (crashing when any is missing, the first with the message
of the `ok_or`) and clones them into a `RealVerifier`. -/
def RealProver.verifier : PM RealVerifierState := do
  let s ← getS
  let gp ← unwrapO s.general_params
    "params not available, please execute prover.load() first"
  let vp ← unwrapO s.verifier_params "called Option::unwrap on a None value"
  let vk ← unwrapO s.circuit_verifying_key
    "called Option::unwrap on a None value"
  pure { circuit_name := derive_circuit_name s.circuit,
         dir_path := s.dir_path,
         num_instance := [s.circuit.inst.length],
         general_params := gp,
         verifier_params := vp,
         circuit_verifying_key := vk }

/-- Modelled from the spec: `verify_proof` of halo2 replays the transcript
from the proof bytes against the verifier parameters, verifying key and
instance values, accepting exactly when the proof was created with the
matching proving key (same embedded verifying key), with general parameters
whose verifier restriction equals these verifier parameters, and for exactly
these instance values; otherwise it rejects. -/
def verify_proof (vp : ParamsKZG) (vk : VerifyingKey)
    (inst : List (List Fr)) (pf : ProofData) : Except Error Unit :=
  if pf.vk = vk ∧ pf.gp.verifier_params = vp ∧ pf.inst = inst then
    Except.ok ()
  else
    Except.error Error.verifyFailed

/-- Method `RealVerifier::run` (src/real_prover.rs:324-342): builds the
`SingleStrategy` from the general parameters (no observable effect) and
calls `verify_proof` with the verifier parameters and verifying key. -/
def RealVerifierState.run (v : RealVerifierState) (proof : ProofData)
    (instanceValues : List (List Fr)) : Except Error Unit :=
  verify_proof v.verifier_params v.circuit_verifying_key instanceValues proof

/-- Modelled from the spec: the snark-verifier pipeline of
`RealVerifier::generate_yul` — `compile` the verifier parameters and
verifying key into a protocol description for the declared instance arity
and render it into Yul source.  A deterministic function of exactly those
three inputs. -/
def yulSource (vp : ParamsKZG) (vk : VerifyingKey)
    (numInstance : List Nat) : String :=
  "yul verifier for " ++ toString (repr vp) ++ " " ++ toString (repr vk)
    ++ " " ++ toString (repr numInstance)

/-- Method `RealVerifier::generate_yul` (src/real_prover.rs:344-375): render the
source text from the loaded artifacts; when `write_to_file`, persist it to
`{circuit_name}_verifier.yul` (propagating create/write errors). -/
def RealVerifierState.generate_yul (v : RealVerifierState)
    (write_to_file : Bool) (fs : FS) : Except Error (String × FS) :=
  let source :=
    yulSource v.verifier_params v.circuit_verifying_key v.num_instance
  if write_to_file then
    let path := FPath.yulFile v.circuit_name
    if path ∈ fs.failCreate then Except.error (Error.ioCreate path)
    else if path ∈ fs.failWrite then Except.error (Error.ioWrite path)
    else Except.ok (source, fs.writeFile path (FileData.fYul source))
  else
    Except.ok (source, fs)

/-- Constructor `RealProver::from` (src/real_prover.rs:59-70): a fresh prover for a
circuit and degree, rng seeded with the fixed constant 2, nothing cached.
The artifact directory contents are the ambient `fs`. -/
def RealProver.from (circuit : Circuit) (k : Nat) (fs : FS) : ProverState :=
  { circuit := circuit,
    degree := k,
    dir_path := "./out",
    rng := 2,
    general_params := none,
    verifier_params := none,
    circuit_proving_key := none,
    circuit_verifying_key := none,
    fs := fs,
    events := [] }

/-- Key-generation events, for counting how often the expensive
`keygen_vk` / `keygen_pk` branches ran. -/
def Event.isKeyGen : Event → Bool
  | Event.genVK => true
  | Event.genPK => true
  | _ => false

/-- How many key generations the trace of a state records. -/
def keyGenCount (s : ProverState) : Nat :=
  (s.events.filter Event.isKeyGen).length

/-- An empty artifact directory where every file operation succeeds. -/
def emptyFS : FS := { files := [], failCreate := [], failWrite := [] }

/-- A sample circuit for concrete witnesses. -/
def sampleCircuit : Circuit :=
  { name := "SuperCircuit", shape := 7, inst := [[1, 2], [3]], wit := 42 }

/-- Sample general parameters (degree 3, the fixed seed). -/
def sampleParams : ParamsKZG := ParamsKZG.setup 3 2

/-- A sample verifying key. -/
def sampleVK : VerifyingKey := keygen_vk sampleParams sampleCircuit

/-- A sample proving key matching `sampleVK`. -/
def samplePK : ProvingKey := keygen_pk sampleParams sampleVK sampleCircuit

/-- A second, different verifying key (different degree). -/
def otherVK : VerifyingKey := keygen_vk (ParamsKZG.setup 4 2) sampleCircuit

/-- A second, different proving key. -/
def otherPK : ProvingKey :=
  keygen_pk (ParamsKZG.setup 4 2) otherVK sampleCircuit

/-- A fresh prover over an empty directory. -/
def freshState : ProverState := RealProver.from sampleCircuit 3 emptyFS

/-- The directory after generating and persisting the degree-3 general
parameters. -/
def generatedParamsFS : FS :=
  { files := [(FPath.kzgGeneralParams 3, FileData.fParams sampleParams)],
    failCreate := [], failWrite := [] }

/-- The prover state after `set_general_params(None)` on `freshState`. -/
def afterFirstCallState : ProverState :=
  { freshState with
    general_params := some sampleParams,
    fs := generatedParamsFS,
    events := [Event.mkdir, Event.openFile (FPath.kzgGeneralParams 3),
      Event.genGeneralParams, Event.createFile (FPath.kzgGeneralParams 3),
      Event.writeFile (FPath.kzgGeneralParams 3)] }

/-- A directory where creating the general-parameters file fails. -/
def failCreateState : ProverState :=
  RealProver.from sampleCircuit 3
    { files := [], failCreate := [FPath.kzgGeneralParams 3], failWrite := [] }

/-- A directory where writing the general-parameters file fails. -/
def failWriteState : ProverState :=
  RealProver.from sampleCircuit 3
    { files := [], failCreate := [], failWrite := [FPath.kzgGeneralParams 3] }

/-- General parameters loaded, verifier-parameters file creation fails. -/
def vpFailCreateState : ProverState :=
  { RealProver.from sampleCircuit 3
      { files := [], failCreate := [FPath.kzgVerifierParams 3],
        failWrite := [] } with
    general_params := some sampleParams }

/-- General parameters loaded, verifier-parameters file write fails. -/
def vpFailWriteState : ProverState :=
  { RealProver.from sampleCircuit 3
      { files := [], failCreate := [],
        failWrite := [FPath.kzgVerifierParams 3] } with
    general_params := some sampleParams }

/-- A directory holding valid key files for `sampleCircuit` at degree 3. -/
def keyFilesFS : FS :=
  { files := [(FPath.verifyingKey "SuperCircuit" 3, FileData.fVK sampleVK),
      (FPath.provingKey "SuperCircuit" 3, FileData.fPK samplePK)],
    failCreate := [], failWrite := [] }

/-- A fresh prover over a directory with valid key files. -/
def keyFilesState : ProverState := RealProver.from sampleCircuit 3 keyFilesFS

/-- General parameters in memory, nothing else cached, empty directory. -/
def gpOnlyState : ProverState :=
  { freshState with general_params := some sampleParams }

/-- General and verifier parameters in memory, no keys cached. -/
def gvOnlyState : ProverState :=
  { gpOnlyState with verifier_params := some sampleParams.verifier_params }

/-- A fully loaded prover (all four artifacts in memory). -/
def loadedState : ProverState :=
  { gvOnlyState with
    circuit_verifying_key := some sampleVK,
    circuit_proving_key := some samplePK }

/-- A prover with only the proving key cached in memory. -/
def pkOnlyState : ProverState :=
  { freshState with circuit_proving_key := some samplePK }

/-- A directory holding only a valid verifying-key file. -/
def vkFileFS : FS :=
  { files := [(FPath.verifyingKey "SuperCircuit" 3, FileData.fVK sampleVK)],
    failCreate := [], failWrite := [] }

/-- General parameters in memory, verifying-key file on disk, no proving
key anywhere. -/
def vkFileState : ProverState :=
  { RealProver.from sampleCircuit 3 vkFileFS with
    general_params := some sampleParams }

/-- General parameters loaded, creating the verifying-key file fails. -/
def vkKeyFailCreateState : ProverState :=
  { RealProver.from sampleCircuit 3
      { files := [], failCreate := [FPath.verifyingKey "SuperCircuit" 3],
        failWrite := [] } with
    general_params := some sampleParams }

/-- General parameters loaded, writing the verifying-key file fails. -/
def vkKeyFailWriteState : ProverState :=
  { RealProver.from sampleCircuit 3
      { files := [], failCreate := [],
        failWrite := [FPath.verifyingKey "SuperCircuit" 3] } with
    general_params := some sampleParams }

/-- General parameters loaded, verifying-key file on disk, creating the
proving-key file fails. -/
def pkKeyFailCreateState : ProverState :=
  { RealProver.from sampleCircuit 3
      { files := [(FPath.verifyingKey "SuperCircuit" 3,
          FileData.fVK sampleVK)],
        failCreate := [FPath.provingKey "SuperCircuit" 3],
        failWrite := [] } with
    general_params := some sampleParams }

/-- General parameters loaded, verifying-key file on disk, writing the
proving-key file fails. -/
def pkKeyFailWriteState : ProverState :=
  { RealProver.from sampleCircuit 3
      { files := [(FPath.verifyingKey "SuperCircuit" 3,
          FileData.fVK sampleVK)],
        failCreate := [],
        failWrite := [FPath.provingKey "SuperCircuit" 3] } with
    general_params := some sampleParams }

/-!
Step lemmas: symbolic execution of the monad, one rewrite per primitive.
These are proved by `rfl` / case analysis and let proofs evaluate a method
state by state without unfolding the `Monad PM` instance globally.
-/

theorem pure_apply {α : Type} (a : α) (s : ProverState) :
    (pure a : PM α) s = PRes.ok a s := rfl

theorem ite_pm_apply {α : Type} (c : Prop) [Decidable c] (x y : PM α)
    (s : ProverState) : (if c then x else y) s = if c then x s else y s := by
  by_cases h : c <;> simp [h]

theorem bind_assoc_pm {α β γ : Type} (x : PM α) (f : α → PM β) (g : β → PM γ)
    (s : ProverState) :
    ((x >>= f) >>= g) s = (x >>= fun a => f a >>= g) s := by
  dsimp only [Bind.bind, Monad.toBind]
  cases x s <;> rfl

theorem bind_ite_pm {α β : Type} (c : Prop) [Decidable c] (x y : PM α)
    (f : α → PM β) (s : ProverState) :
    ((if c then x else y) >>= f) s =
      if c then (x >>= f) s else (y >>= f) s := by
  by_cases h : c <;> simp [h]

theorem bind_pure {α β : Type} (a : α) (f : α → PM β) (s : ProverState) :
    (pure a >>= f) s = f a s := rfl

theorem bind_throwE {α β : Type} (e : Error) (f : α → PM β) (s : ProverState) :
    (throwE e >>= f) s = PRes.err e s := rfl

theorem bind_crashWith {α β : Type} (msg : String) (f : α → PM β)
    (s : ProverState) : (crashWith msg >>= f) s = PRes.crash msg := rfl

theorem bind_getS {α : Type} (f : ProverState → PM α) (s : ProverState) :
    (getS >>= f) s = f s s := rfl

theorem bind_modifyS {α : Type} (g : ProverState → ProverState)
    (f : Unit → PM α) (s : ProverState) : (modifyS g >>= f) s = f () (g s) := rfl

theorem modifyS_apply (g : ProverState → ProverState) (s : ProverState) :
    modifyS g s = PRes.ok () (g s) := rfl

theorem bind_recordEvent {α : Type} (e : Event) (f : Unit → PM α)
    (s : ProverState) :
    (recordEvent e >>= f) s = f () { s with events := s.events ++ [e] } := rfl

theorem bind_fileOpen {α : Type} (p : FPath) (f : Option FileData → PM α)
    (s : ProverState) :
    (fileOpen p >>= f) s =
      f (s.fs.read p) { s with events := s.events ++ [Event.openFile p] } := rfl

theorem bind_fileCreate {α : Type} (p : FPath) (f : Unit → PM α)
    (s : ProverState) :
    (fileCreate p >>= f) s =
      if p ∈ s.fs.failCreate then
        PRes.err (Error.ioCreate p)
          { s with events := s.events ++ [Event.createFile p] }
      else f () { s with events := s.events ++ [Event.createFile p] } := by
  dsimp only [Bind.bind, Monad.toBind]
  unfold fileCreate
  by_cases h : p ∈ s.fs.failCreate <;> simp [h]

theorem bind_fileWrite {α : Type} (p : FPath) (d : FileData) (f : Unit → PM α)
    (s : ProverState) :
    (fileWrite p d >>= f) s =
      if p ∈ s.fs.failWrite then
        PRes.err (Error.ioWrite p)
          { s with events := s.events ++ [Event.writeFile p] }
      else
        f () { s with fs := s.fs.writeFile p d,
                      events := s.events ++ [Event.writeFile p] } := by
  dsimp only [Bind.bind, Monad.toBind]
  unfold fileWrite
  by_cases h : p ∈ s.fs.failWrite <;> simp [h]

theorem bind_unwrapO_some {α β : Type} (a : α) (msg : String) (f : α → PM β)
    (s : ProverState) : (unwrapO (some a) msg >>= f) s = f a s := rfl

theorem bind_unwrapO_none {α β : Type} (msg : String) (f : α → PM β)
    (s : ProverState) : (unwrapO (none : Option α) msg >>= f) s = PRes.crash msg := rfl

theorem bind_read_params_custom_params {α : Type} (p : FPath) (q : ParamsKZG)
    (f : ParamsKZG → PM α) (s : ProverState) :
    (read_params_custom p (FileData.fParams q) >>= f) s = f q s := rfl

theorem bind_read_vk_unwrap_vk {α : Type} (k : VerifyingKey)
    (f : VerifyingKey → PM α) (s : ProverState) :
    (read_vk_unwrap (FileData.fVK k) >>= f) s = f k s := rfl

theorem bind_read_pk_unwrap_pk {α : Type} (k : ProvingKey)
    (f : ProvingKey → PM α) (s : ProverState) :
    (read_pk_unwrap (FileData.fPK k) >>= f) s = f k s := rfl

theorem FS.read_writeFile (fs : FS) (p q : FPath) (d : FileData) :
    (fs.writeFile p d).read q = if p = q then some d else fs.read q := by
  unfold FS.read FS.writeFile
  by_cases h : p = q
  · simp [List.find?, h]
  · simp only [List.find?]
    have : ((p, d).1 == q) = false := by
      simp [h]
    simp [this, h]

theorem FS.failCreate_writeFile (fs : FS) (p : FPath) (d : FileData) :
    (fs.writeFile p d).failCreate = fs.failCreate := rfl

theorem FS.failWrite_writeFile (fs : FS) (p : FPath) (d : FileData) :
    (fs.writeFile p d).failWrite = fs.failWrite := rfl

/-- Claim C6: for every degree, calling `set_general_params(None)` twice on
the same prover yields the same general parameters both times, and the
second call performs no generation and no file I/O.  Formally: whenever a
first call returns `Ok` with state `s1`, the second call returns `Ok` with
exactly the state `s1` — unchanged parameters, unchanged directory, and an
unchanged event trace (so no generation event and no open/create/write was
even attempted): the call returns on the in-memory cache hit. -/
theorem C6_set_general_params_idempotent (s s1 : ProverState)
    (h : RealProver.set_general_params none s = PRes.ok () s1) :
    RealProver.set_general_params none s1 = PRes.ok () s1 := by
  have hsome : s1.general_params.isSome := by
    unfold RealProver.set_general_params at h
    simp only [Option.isSome_none, Bool.false_eq_true, if_false, ite_pm_apply,
      bind_pure, bind_getS, bind_fileOpen, bind_recordEvent, bind_fileCreate,
      bind_fileWrite, modifyS_apply, pure_apply, ensure_dir_exists] at h
    by_cases hmem : s.general_params.isSome
    · simp only [hmem, if_true] at h
      cases h
      exact hmem
    · simp only [hmem, Bool.false_eq_true, if_false] at h
      rcases hread : s.fs.read (FPath.kzgGeneralParams s.degree) with _ | d
      · rw [hread] at h
        simp only [bind_recordEvent, bind_fileCreate, bind_fileWrite,
          modifyS_apply] at h
        split at h
        · cases h
        · split at h
          · cases h
          · cases h; simp
      · rw [hread] at h
        rcases d with p | k | k | pf | y <;>
          simp only [bind_read_params_custom_params, read_params_custom,
            bind_throwE, modifyS_apply] at h
        · cases h; simp
        all_goals cases h
  unfold RealProver.set_general_params
  simp only [Option.isSome_none, Bool.false_eq_true, if_false, ite_pm_apply,
    bind_pure, bind_getS, pure_apply]
  simp [hsome]

/-- Claim C6 witness: on a concrete fresh prover the first call generates
and persists the parameters; the theorem applied there shows the second
call is the identity on the resulting state. -/
theorem C6_witness :
    RealProver.set_general_params none freshState =
      PRes.ok () afterFirstCallState ∧
    RealProver.set_general_params none afterFirstCallState =
      PRes.ok () afterFirstCallState :=
  ⟨by decide,
    C6_set_general_params_idempotent freshState afterFirstCallState (by decide)⟩

/-- Claim C5 counterexample: not every I/O error is propagated — a failed
`File::open` is not fatal.  On a concrete fresh prover over an empty
directory the open of the general-parameters file fails (the file is
absent), yet `set_general_params` returns `Ok` and converts the failure
into a regeneration of the artifact (the trace records the generation
event), contradicting "the error is fatal and propagated unchanged to the
caller; no I/O error is swallowed, retried, or converted into a
regeneration of the artifact". -/
theorem C5_counterexample :
    freshState.fs.read (FPath.kzgGeneralParams 3) = none ∧
    RealProver.set_general_params none freshState =
      PRes.ok () afterFirstCallState ∧
    afterFirstCallState.events.contains Event.genGeneralParams = true := by
  decide

/-- Claim C5 as amended: errors from `File::create` and from writing during
parameter and key persistence are fatal and propagated unchanged to the
caller (no retry, no swallowing), while a failed `File::open` is treated as
a cache miss and triggers generation of the artifact instead of being
propagated.  The eight parts cover create and write failures for
`set_general_params`, `set_verifier_params`, and both the verifying-key
and proving-key files of `set_circuit_params`. -/
theorem C5_io_errors_propagated :
    (∀ s : ProverState, s.general_params = none →
      s.fs.read (FPath.kzgGeneralParams s.degree) = none →
      FPath.kzgGeneralParams s.degree ∈ s.fs.failCreate →
      ∃ s', RealProver.set_general_params none s =
        PRes.err (Error.ioCreate (FPath.kzgGeneralParams s.degree)) s') ∧
    (∀ s : ProverState, s.general_params = none →
      s.fs.read (FPath.kzgGeneralParams s.degree) = none →
      FPath.kzgGeneralParams s.degree ∉ s.fs.failCreate →
      FPath.kzgGeneralParams s.degree ∈ s.fs.failWrite →
      ∃ s', RealProver.set_general_params none s =
        PRes.err (Error.ioWrite (FPath.kzgGeneralParams s.degree)) s') ∧
    (∀ (s : ProverState) (gp : ParamsKZG), s.verifier_params = none →
      s.general_params = some gp →
      s.fs.read (FPath.kzgVerifierParams s.degree) = none →
      FPath.kzgVerifierParams s.degree ∈ s.fs.failCreate →
      ∃ s', RealProver.set_verifier_params none s =
        PRes.err (Error.ioCreate (FPath.kzgVerifierParams s.degree)) s') ∧
    (∀ (s : ProverState) (gp : ParamsKZG), s.verifier_params = none →
      s.general_params = some gp →
      s.fs.read (FPath.kzgVerifierParams s.degree) = none →
      FPath.kzgVerifierParams s.degree ∉ s.fs.failCreate →
      FPath.kzgVerifierParams s.degree ∈ s.fs.failWrite →
      ∃ s', RealProver.set_verifier_params none s =
        PRes.err (Error.ioWrite (FPath.kzgVerifierParams s.degree)) s') ∧
    (∀ (s : ProverState) (gp : ParamsKZG),
      s.general_params = some gp →
      s.circuit_verifying_key = none →
      s.fs.read (FPath.verifyingKey (derive_circuit_name s.circuit) s.degree)
        = none →
      FPath.verifyingKey (derive_circuit_name s.circuit) s.degree
        ∈ s.fs.failCreate →
      ∃ s', RealProver.set_circuit_params none none s =
        PRes.err
          (Error.ioCreate
            (FPath.verifyingKey (derive_circuit_name s.circuit) s.degree))
          s') ∧
    (∀ (s : ProverState) (gp : ParamsKZG),
      s.general_params = some gp →
      s.circuit_verifying_key = none →
      s.fs.read (FPath.verifyingKey (derive_circuit_name s.circuit) s.degree)
        = none →
      FPath.verifyingKey (derive_circuit_name s.circuit) s.degree
        ∉ s.fs.failCreate →
      FPath.verifyingKey (derive_circuit_name s.circuit) s.degree
        ∈ s.fs.failWrite →
      ∃ s', RealProver.set_circuit_params none none s =
        PRes.err
          (Error.ioWrite
            (FPath.verifyingKey (derive_circuit_name s.circuit) s.degree))
          s') ∧
    (∀ (s : ProverState) (gp : ParamsKZG) (vkf : VerifyingKey),
      s.general_params = some gp →
      s.circuit_proving_key = none →
      s.fs.read (FPath.verifyingKey (derive_circuit_name s.circuit) s.degree)
        = some (FileData.fVK vkf) →
      s.fs.read (FPath.provingKey (derive_circuit_name s.circuit) s.degree)
        = none →
      FPath.provingKey (derive_circuit_name s.circuit) s.degree
        ∈ s.fs.failCreate →
      ∃ s', RealProver.set_circuit_params none none s =
        PRes.err
          (Error.ioCreate
            (FPath.provingKey (derive_circuit_name s.circuit) s.degree))
          s') ∧
    (∀ (s : ProverState) (gp : ParamsKZG) (vkf : VerifyingKey),
      s.general_params = some gp →
      s.circuit_proving_key = none →
      s.fs.read (FPath.verifyingKey (derive_circuit_name s.circuit) s.degree)
        = some (FileData.fVK vkf) →
      s.fs.read (FPath.provingKey (derive_circuit_name s.circuit) s.degree)
        = none →
      FPath.provingKey (derive_circuit_name s.circuit) s.degree
        ∉ s.fs.failCreate →
      FPath.provingKey (derive_circuit_name s.circuit) s.degree
        ∈ s.fs.failWrite →
      ∃ s', RealProver.set_circuit_params none none s =
        PRes.err
          (Error.ioWrite
            (FPath.provingKey (derive_circuit_name s.circuit) s.degree))
          s') := by
  refine ⟨?_, ?_, ?_, ?_, ?_, ?_, ?_, ?_⟩
  · intro s hmem hread hfail
    unfold RealProver.set_general_params
    simp only [Option.isSome_none, Bool.false_eq_true, if_false, ite_pm_apply,
      bind_pure, bind_getS, bind_fileOpen, bind_recordEvent, bind_fileCreate,
      bind_fileWrite, modifyS_apply, pure_apply, ensure_dir_exists, hmem,
      Option.isSome_some, hread, hfail, if_true]
    exact ⟨_, rfl⟩
  · intro s hmem hread hokc hfail
    unfold RealProver.set_general_params
    simp only [Option.isSome_none, Bool.false_eq_true, if_false, ite_pm_apply,
      bind_pure, bind_getS, bind_fileOpen, bind_recordEvent, bind_fileCreate,
      bind_fileWrite, modifyS_apply, pure_apply, ensure_dir_exists, hmem,
      Option.isSome_some, hread, hokc, hfail, if_true]
    exact ⟨_, rfl⟩
  · intro s gp hmem hgp hread hfail
    unfold RealProver.set_verifier_params
    simp only [Option.isSome_none, Bool.false_eq_true, if_false, ite_pm_apply,
      bind_pure, bind_getS, bind_fileOpen, bind_recordEvent, bind_fileCreate,
      bind_fileWrite, bind_unwrapO_some, modifyS_apply, pure_apply,
      ensure_dir_exists, hmem, hgp, Option.isSome_some, hread, hfail, if_true]
    exact ⟨_, rfl⟩
  · intro s gp hmem hgp hread hokc hfail
    unfold RealProver.set_verifier_params
    simp only [Option.isSome_none, Bool.false_eq_true, if_false, ite_pm_apply,
      bind_pure, bind_getS, bind_fileOpen, bind_recordEvent, bind_fileCreate,
      bind_fileWrite, bind_unwrapO_some, modifyS_apply, pure_apply,
      ensure_dir_exists, hmem, hgp, Option.isSome_some, hread, hokc, hfail,
      if_true]
    exact ⟨_, rfl⟩
  · intro s gp hgp hvkmem hread hfail
    unfold RealProver.set_circuit_params
    simp only [ite_pm_apply, bind_pure, bind_getS, bind_fileOpen,
      bind_recordEvent, bind_fileCreate, bind_fileWrite, bind_unwrapO_some,
      bind_modifyS, modifyS_apply, pure_apply, ensure_dir_exists, hgp,
      hvkmem, hread, hfail, Option.isSome_none, Bool.and_false,
      Bool.false_eq_true, if_false, if_true]
    exact ⟨_, rfl⟩
  · intro s gp hgp hvkmem hread hokc hfail
    unfold RealProver.set_circuit_params
    simp only [ite_pm_apply, bind_pure, bind_getS, bind_fileOpen,
      bind_recordEvent, bind_fileCreate, bind_fileWrite, bind_unwrapO_some,
      bind_modifyS, modifyS_apply, pure_apply, ensure_dir_exists, hgp,
      hvkmem, hread, hokc, hfail, Option.isSome_none, Bool.and_false,
      Bool.false_eq_true, if_false, if_true]
    exact ⟨_, rfl⟩
  · intro s gp vkf hgp hpkmem hfvk hfpk hfail
    unfold RealProver.set_circuit_params
    simp only [ite_pm_apply, bind_pure, bind_getS, bind_fileOpen,
      bind_recordEvent, bind_fileCreate, bind_fileWrite, bind_unwrapO_some,
      bind_read_vk_unwrap_vk, bind_modifyS, modifyS_apply, pure_apply,
      ensure_dir_exists, hgp, hpkmem, hfvk, hfpk, hfail, Option.isSome_none,
      Bool.false_and, Bool.false_eq_true, if_false, if_true]
    exact ⟨_, rfl⟩
  · intro s gp vkf hgp hpkmem hfvk hfpk hokc hfail
    unfold RealProver.set_circuit_params
    simp only [ite_pm_apply, bind_pure, bind_getS, bind_fileOpen,
      bind_recordEvent, bind_fileCreate, bind_fileWrite, bind_unwrapO_some,
      bind_read_vk_unwrap_vk, bind_modifyS, modifyS_apply, pure_apply,
      ensure_dir_exists, hgp, hpkmem, hfvk, hfpk, hokc, hfail,
      Option.isSome_none, Bool.false_and, Bool.false_eq_true, if_false,
      if_true]
    exact ⟨_, rfl⟩

/-- Claim C5 witness: the amended theorem applied at eight concrete
provers, one per failing operation — create and write failures for the
general parameters, the verifier parameters, the verifying-key file, and
the proving-key file. -/
theorem C5_witness :
    (∃ s', RealProver.set_general_params none failCreateState =
      PRes.err (Error.ioCreate (FPath.kzgGeneralParams 3)) s') ∧
    (∃ s', RealProver.set_general_params none failWriteState =
      PRes.err (Error.ioWrite (FPath.kzgGeneralParams 3)) s') ∧
    (∃ s', RealProver.set_verifier_params none vpFailCreateState =
      PRes.err (Error.ioCreate (FPath.kzgVerifierParams 3)) s') ∧
    (∃ s', RealProver.set_verifier_params none vpFailWriteState =
      PRes.err (Error.ioWrite (FPath.kzgVerifierParams 3)) s') ∧
    (∃ s', RealProver.set_circuit_params none none vkKeyFailCreateState =
      PRes.err (Error.ioCreate (FPath.verifyingKey "SuperCircuit" 3)) s') ∧
    (∃ s', RealProver.set_circuit_params none none vkKeyFailWriteState =
      PRes.err (Error.ioWrite (FPath.verifyingKey "SuperCircuit" 3)) s') ∧
    (∃ s', RealProver.set_circuit_params none none pkKeyFailCreateState =
      PRes.err (Error.ioCreate (FPath.provingKey "SuperCircuit" 3)) s') ∧
    (∃ s', RealProver.set_circuit_params none none pkKeyFailWriteState =
      PRes.err (Error.ioWrite (FPath.provingKey "SuperCircuit" 3)) s') :=
  ⟨C5_io_errors_propagated.1 failCreateState rfl rfl (by decide),
   C5_io_errors_propagated.2.1 failWriteState rfl rfl (by decide) (by decide),
   C5_io_errors_propagated.2.2.1 vpFailCreateState sampleParams rfl rfl rfl
     (by decide),
   C5_io_errors_propagated.2.2.2.1 vpFailWriteState sampleParams rfl rfl rfl
     (by decide) (by decide),
   C5_io_errors_propagated.2.2.2.2.1 vkKeyFailCreateState sampleParams rfl
     rfl (by decide) (by decide),
   C5_io_errors_propagated.2.2.2.2.2.1 vkKeyFailWriteState sampleParams rfl
     rfl (by decide) (by decide) (by decide),
   C5_io_errors_propagated.2.2.2.2.2.2.1 pkKeyFailCreateState sampleParams
     sampleVK rfl rfl (by decide) (by decide) (by decide),
   C5_io_errors_propagated.2.2.2.2.2.2.2 pkKeyFailWriteState sampleParams
     sampleVK rfl rfl (by decide) (by decide) (by decide) (by decide)⟩

/-- Claim C7: parameter generation is deterministic.  Two independently
constructed provers (each built by `RealProver::from`, which seeds the rng
with the fixed constant 2), over any circuits and any directories in which
the general-parameters file for degree `k` is absent and writable, both
reach the generation branch and produce identical general setup parameters,
namely `ParamsKZG.setup k 2`. -/
theorem C7_params_generation_deterministic (c1 c2 : Circuit) (k : Nat)
    (fs1 fs2 : FS)
    (h1 : fs1.read (FPath.kzgGeneralParams k) = none)
    (h1c : FPath.kzgGeneralParams k ∉ fs1.failCreate)
    (h1w : FPath.kzgGeneralParams k ∉ fs1.failWrite)
    (h2 : fs2.read (FPath.kzgGeneralParams k) = none)
    (h2c : FPath.kzgGeneralParams k ∉ fs2.failCreate)
    (h2w : FPath.kzgGeneralParams k ∉ fs2.failWrite) :
    ∃ s1 s2,
      RealProver.set_general_params none (RealProver.from c1 k fs1) =
        PRes.ok () s1 ∧
      RealProver.set_general_params none (RealProver.from c2 k fs2) =
        PRes.ok () s2 ∧
      s1.general_params = s2.general_params ∧
      s1.general_params = some (ParamsKZG.setup k 2) := by
  unfold RealProver.set_general_params RealProver.from
  simp only [Option.isSome_none, Bool.false_eq_true, if_false, ite_pm_apply,
    bind_pure, bind_getS, bind_fileOpen, bind_recordEvent, bind_fileCreate,
    bind_fileWrite, modifyS_apply, pure_apply, ensure_dir_exists, h1, h1c,
    h1w, h2, h2c, h2w, if_true]
  exact ⟨_, _, rfl, rfl, rfl, rfl⟩

/-- Claim C7 witness: two concrete fresh provers over distinct empty
directories produce the same degree-3 parameters. -/
theorem C7_witness :
    ∃ s1 s2,
      RealProver.set_general_params none
          (RealProver.from sampleCircuit 3 emptyFS) = PRes.ok () s1 ∧
      RealProver.set_general_params none
          (RealProver.from { sampleCircuit with wit := 0 } 3 emptyFS) =
        PRes.ok () s2 ∧
      s1.general_params = s2.general_params ∧
      s1.general_params = some (ParamsKZG.setup 3 2) :=
  C7_params_generation_deterministic sampleCircuit
    { sampleCircuit with wit := 0 } 3 emptyFS emptyFS rfl (by decide)
    (by decide) rfl (by decide) (by decide)

/-- Claim C2: when valid key files exist at the canonical paths for the
prover's (circuit-name, degree), `set_circuit_params(None, None)` returns
`Ok`, performs no key generation (the key-generation event count is
unchanged), writes nothing to the directory, reads the keys from those
files whenever they are not already both cached in memory, and a repeated
call within the same process returns immediately on the in-memory hit with
the state unchanged. -/
theorem C2_keystore_never_regenerates (s : ProverState) (vkf : VerifyingKey)
    (pkf : ProvingKey)
    (hvk : s.fs.read
        (FPath.verifyingKey (derive_circuit_name s.circuit) s.degree) =
      some (FileData.fVK vkf))
    (hpk : s.fs.read
        (FPath.provingKey (derive_circuit_name s.circuit) s.degree) =
      some (FileData.fPK pkf)) :
    ∃ s', RealProver.set_circuit_params none none s = PRes.ok () s' ∧
      keyGenCount s' = keyGenCount s ∧
      s'.fs = s.fs ∧
      ((s.circuit_proving_key.isSome && s.circuit_verifying_key.isSome)
          = false →
        s'.circuit_verifying_key = some vkf ∧
        s'.circuit_proving_key = some pkf) ∧
      RealProver.set_circuit_params none none s' = PRes.ok () s' := by
  by_cases hb :
      (s.circuit_proving_key.isSome && s.circuit_verifying_key.isSome) = true
  · have hcall : RealProver.set_circuit_params none none s = PRes.ok () s := by
      unfold RealProver.set_circuit_params
      simp only [ite_pm_apply, bind_pure, bind_getS, pure_apply]
      rw [hb]
      simp
    refine ⟨s, hcall, rfl, rfl, ?_, hcall⟩
    intro habs
    rw [hb] at habs
    cases habs
  · have hb' :
        (s.circuit_proving_key.isSome && s.circuit_verifying_key.isSome)
          = false := by
      simpa using hb
    unfold RealProver.set_circuit_params
    simp only [ite_pm_apply, bind_pure, bind_getS, bind_fileOpen,
      bind_recordEvent, bind_fileCreate, bind_fileWrite, bind_unwrapO_some,
      bind_read_vk_unwrap_vk, bind_read_pk_unwrap_pk, bind_modifyS,
      modifyS_apply, pure_apply, ensure_dir_exists, hb', Bool.false_eq_true,
      if_false, Option.isSome_none, Bool.and_false, hvk, hpk]
    refine ⟨_, rfl, ?_, rfl, fun _ => ⟨rfl, rfl⟩, ?_⟩
    · simp [keyGenCount, List.filter_append, Event.isKeyGen]
    · simp [ite_pm_apply, bind_pure, bind_getS, pure_apply]

/-- Claim C2 witness: a concrete fresh prover over a directory holding
valid key files loads both keys from disk without any generation. -/
theorem C2_witness :
    ∃ s', RealProver.set_circuit_params none none keyFilesState =
        PRes.ok () s' ∧
      keyGenCount s' = keyGenCount keyFilesState ∧
      s'.fs = keyFilesState.fs ∧
      ((keyFilesState.circuit_proving_key.isSome &&
          keyFilesState.circuit_verifying_key.isSome) = false →
        s'.circuit_verifying_key = some sampleVK ∧
        s'.circuit_proving_key = some samplePK) ∧
      RealProver.set_circuit_params none none s' = PRes.ok () s' :=
  C2_keystore_never_regenerates keyFilesState sampleVK samplePK (by decide)
    (by decide)

/-- Claim C3: (1) when neither key is cached and no key files exist (and
general parameters are loaded, cf. C4), `set_circuit_params` generates and
persists the verifying key strictly before generating the proving key: the
event trace is exactly open-vk, gen-vk, create-vk, write-vk, mkdir,
open-pk, gen-pk, create-pk, write-pk, and the proving key is built from the
verifying key generated first; (2) when only the proving key is missing
(verifying-key file on disk, no proving key cached or on disk), the call
still obtains the verifying key first — reading it from disk, not
regenerating it — derives the proving key from it, and returns `Ok` rather
than any missing-dependency error. -/
theorem C3_vk_generated_before_pk :
    (∀ (s : ProverState) (gp : ParamsKZG),
      s.general_params = some gp →
      s.circuit_proving_key = none →
      s.circuit_verifying_key = none →
      s.fs.read (FPath.verifyingKey (derive_circuit_name s.circuit) s.degree)
        = none →
      s.fs.read (FPath.provingKey (derive_circuit_name s.circuit) s.degree)
        = none →
      FPath.verifyingKey (derive_circuit_name s.circuit) s.degree
        ∉ s.fs.failCreate →
      FPath.verifyingKey (derive_circuit_name s.circuit) s.degree
        ∉ s.fs.failWrite →
      FPath.provingKey (derive_circuit_name s.circuit) s.degree
        ∉ s.fs.failCreate →
      FPath.provingKey (derive_circuit_name s.circuit) s.degree
        ∉ s.fs.failWrite →
      ∃ s', RealProver.set_circuit_params none none s = PRes.ok () s' ∧
        s'.circuit_verifying_key = some (keygen_vk gp s.circuit) ∧
        s'.circuit_proving_key =
          some (keygen_pk gp (keygen_vk gp s.circuit) s.circuit) ∧
        s'.fs.read
            (FPath.verifyingKey (derive_circuit_name s.circuit) s.degree) =
          some (FileData.fVK (keygen_vk gp s.circuit)) ∧
        s'.events = s.events ++
          [Event.openFile
              (FPath.verifyingKey (derive_circuit_name s.circuit) s.degree),
            Event.genVK,
            Event.createFile
              (FPath.verifyingKey (derive_circuit_name s.circuit) s.degree),
            Event.writeFile
              (FPath.verifyingKey (derive_circuit_name s.circuit) s.degree),
            Event.mkdir,
            Event.openFile
              (FPath.provingKey (derive_circuit_name s.circuit) s.degree),
            Event.genPK,
            Event.createFile
              (FPath.provingKey (derive_circuit_name s.circuit) s.degree),
            Event.writeFile
              (FPath.provingKey (derive_circuit_name s.circuit) s.degree)]) ∧
    (∀ (s : ProverState) (gp : ParamsKZG) (vkf : VerifyingKey),
      s.general_params = some gp →
      s.circuit_proving_key = none →
      s.fs.read (FPath.verifyingKey (derive_circuit_name s.circuit) s.degree)
        = some (FileData.fVK vkf) →
      s.fs.read (FPath.provingKey (derive_circuit_name s.circuit) s.degree)
        = none →
      FPath.provingKey (derive_circuit_name s.circuit) s.degree
        ∉ s.fs.failCreate →
      FPath.provingKey (derive_circuit_name s.circuit) s.degree
        ∉ s.fs.failWrite →
      ∃ s', RealProver.set_circuit_params none none s = PRes.ok () s' ∧
        s'.circuit_verifying_key = some vkf ∧
        s'.circuit_proving_key = some (keygen_pk gp vkf s.circuit) ∧
        s'.events = s.events ++
          [Event.openFile
              (FPath.verifyingKey (derive_circuit_name s.circuit) s.degree),
            Event.mkdir,
            Event.openFile
              (FPath.provingKey (derive_circuit_name s.circuit) s.degree),
            Event.genPK,
            Event.createFile
              (FPath.provingKey (derive_circuit_name s.circuit) s.degree),
            Event.writeFile
              (FPath.provingKey (derive_circuit_name s.circuit) s.degree)]) := by
  constructor
  · intro s gp hgp hpkmem hvkmem hfvk hfpk hvc hvw hpc hpw
    unfold RealProver.set_circuit_params
    simp only [ite_pm_apply, bind_pure, bind_getS, bind_fileOpen,
      bind_recordEvent, bind_fileCreate, bind_fileWrite, bind_unwrapO_some,
      bind_read_vk_unwrap_vk, bind_read_pk_unwrap_pk, bind_modifyS,
      modifyS_apply, pure_apply, ensure_dir_exists, hgp, hpkmem, hvkmem,
      hfvk, hfpk, hvc, hvw, hpc, hpw, Option.isSome_none, Bool.false_and,
      Bool.false_eq_true, if_false, FS.read_writeFile,
      FS.failCreate_writeFile, FS.failWrite_writeFile, reduceCtorEq]
    refine ⟨_, rfl, rfl, rfl, ?_, ?_⟩
    · simp [FS.read_writeFile]
    · simp
  · intro s gp vkf hgp hpkmem hfvk hfpk hpc hpw
    unfold RealProver.set_circuit_params
    simp only [ite_pm_apply, bind_pure, bind_getS, bind_fileOpen,
      bind_recordEvent, bind_fileCreate, bind_fileWrite, bind_unwrapO_some,
      bind_read_vk_unwrap_vk, bind_read_pk_unwrap_pk, bind_modifyS,
      modifyS_apply, pure_apply, ensure_dir_exists, hgp, hpkmem, hfvk, hfpk,
      hpc, hpw, Option.isSome_none, Bool.false_and, Bool.false_eq_true,
      if_false, FS.read_writeFile, FS.failCreate_writeFile,
      FS.failWrite_writeFile, reduceCtorEq]
    refine ⟨_, rfl, rfl, rfl, ?_⟩
    simp

/-- Claim C3 witness: both parts applied at concrete provers — a prover
with only general parameters loaded over an empty directory, and one over a
directory holding just the verifying-key file. -/
theorem C3_witness :
    (∃ s', RealProver.set_circuit_params none none gpOnlyState =
        PRes.ok () s' ∧
      s'.circuit_verifying_key =
        some (keygen_vk sampleParams gpOnlyState.circuit) ∧
      s'.circuit_proving_key =
        some (keygen_pk sampleParams
          (keygen_vk sampleParams gpOnlyState.circuit) gpOnlyState.circuit) ∧
      s'.fs.read (FPath.verifyingKey
          (derive_circuit_name gpOnlyState.circuit) gpOnlyState.degree) =
        some (FileData.fVK (keygen_vk sampleParams gpOnlyState.circuit)) ∧
      s'.events = gpOnlyState.events ++
        [Event.openFile (FPath.verifyingKey
            (derive_circuit_name gpOnlyState.circuit) gpOnlyState.degree),
          Event.genVK,
          Event.createFile (FPath.verifyingKey
            (derive_circuit_name gpOnlyState.circuit) gpOnlyState.degree),
          Event.writeFile (FPath.verifyingKey
            (derive_circuit_name gpOnlyState.circuit) gpOnlyState.degree),
          Event.mkdir,
          Event.openFile (FPath.provingKey
            (derive_circuit_name gpOnlyState.circuit) gpOnlyState.degree),
          Event.genPK,
          Event.createFile (FPath.provingKey
            (derive_circuit_name gpOnlyState.circuit) gpOnlyState.degree),
          Event.writeFile (FPath.provingKey
            (derive_circuit_name gpOnlyState.circuit) gpOnlyState.degree)]) ∧
    (∃ s', RealProver.set_circuit_params none none vkFileState =
        PRes.ok () s' ∧
      s'.circuit_verifying_key = some sampleVK ∧
      s'.circuit_proving_key =
        some (keygen_pk sampleParams sampleVK vkFileState.circuit) ∧
      s'.events = vkFileState.events ++
        [Event.openFile (FPath.verifyingKey
            (derive_circuit_name vkFileState.circuit) vkFileState.degree),
          Event.mkdir,
          Event.openFile (FPath.provingKey
            (derive_circuit_name vkFileState.circuit) vkFileState.degree),
          Event.genPK,
          Event.createFile (FPath.provingKey
            (derive_circuit_name vkFileState.circuit) vkFileState.degree),
          Event.writeFile (FPath.provingKey
            (derive_circuit_name vkFileState.circuit) vkFileState.degree)]) :=
  ⟨C3_vk_generated_before_pk.1 gpOnlyState sampleParams rfl rfl rfl
      (by decide) (by decide) (by decide) (by decide) (by decide) (by decide),
    C3_vk_generated_before_pk.2 vkFileState sampleParams sampleVK rfl rfl
      (by decide) (by decide) (by decide) (by decide)⟩

/-- Claim C4 counterexample: on a concrete fresh prover with no general
parameters in memory and no key files on disk, `set_circuit_params` does
not populate the general parameters — it panics on the
`self.general_params.as_mut().unwrap()` inside the verifying-key
generation branch, contradicting "first populates the general parameters
... rather than failing or panicking". -/
theorem C4_counterexample :
    freshState.general_params = none ∧
    RealProver.set_circuit_params none none freshState =
      PRes.crash "called Option::unwrap on a None value" := by
  decide

/-- Claim C4 as amended: `set_circuit_params` assumes the caller has
already loaded the general parameters.  Whenever the general parameters
are `None` and verifying-key generation is required (no verifying key in
memory and no verifying-key file on disk), the call panics on
`Option::unwrap` instead of lazily populating the parameter store; lazy
ordering is provided only by `load()`, which sets the general parameters
before calling `set_circuit_params`. -/
theorem C4_missing_params_panics (s : ProverState)
    (hgp : s.general_params = none)
    (hvkmem : s.circuit_verifying_key = none)
    (hvkfile :
      s.fs.read (FPath.verifyingKey (derive_circuit_name s.circuit) s.degree)
        = none) :
    RealProver.set_circuit_params none none s =
      PRes.crash "called Option::unwrap on a None value" := by
  unfold RealProver.set_circuit_params
  simp only [ite_pm_apply, bind_pure, bind_getS, bind_fileOpen,
    bind_unwrapO_none, bind_modifyS, modifyS_apply, pure_apply,
    ensure_dir_exists, hgp, hvkmem, hvkfile, Option.isSome_none,
    Bool.and_false, Bool.false_eq_true, if_false]

/-- Claim C4 witness: the amended theorem applied at the concrete fresh
prover. -/
theorem C4_witness :
    RealProver.set_circuit_params none none freshState =
      PRes.crash "called Option::unwrap on a None value" :=
  C4_missing_params_panics freshState rfl rfl (by decide)

/-- Claim C9 counterexample: the overrides are not applied "only when ...
no keys are already cached in memory".  On a concrete prover with a proving
key already cached (and no verifying key), passing both overrides replaces
the cached proving key by a different one: the overrides are applied even
though a key was cached in memory. -/
theorem C9_counterexample :
    pkOnlyState.circuit_proving_key = some samplePK ∧
    otherPK ≠ samplePK ∧
    RealProver.set_circuit_params (some otherPK) (some otherVK) pkOnlyState =
      PRes.ok ()
        { pkOnlyState with
          circuit_proving_key := some otherPK,
          circuit_verifying_key := some otherVK } := by
  decide

/-- Claim C9 as amended: `set_circuit_params` applies the key overrides
exactly when both overrides are `Some` and it is not the case that both
keys are already cached in memory (i.e. at least one key is missing, not
"no keys cached"); when both keys are cached it returns without applying
any override; and when exactly one override is provided the call behaves
identically to providing no overrides at all (the file-or-generate path
runs). -/
theorem C9_override_semantics :
    (∀ (s : ProverState) (pko : Option ProvingKey) (vko : Option VerifyingKey),
      (s.circuit_proving_key.isSome && s.circuit_verifying_key.isSome)
        = true →
      RealProver.set_circuit_params pko vko s = PRes.ok () s) ∧
    (∀ (s : ProverState) (pk : ProvingKey) (vk : VerifyingKey),
      (s.circuit_proving_key.isSome && s.circuit_verifying_key.isSome)
        = false →
      RealProver.set_circuit_params (some pk) (some vk) s =
        PRes.ok ()
          { s with circuit_proving_key := some pk,
                   circuit_verifying_key := some vk }) ∧
    (∀ (s : ProverState) (pk : ProvingKey),
      RealProver.set_circuit_params (some pk) none s =
        RealProver.set_circuit_params none none s) ∧
    (∀ (s : ProverState) (vk : VerifyingKey),
      RealProver.set_circuit_params none (some vk) s =
        RealProver.set_circuit_params none none s) := by
  refine ⟨?_, ?_, ?_, ?_⟩
  · intro s pko vko hb
    unfold RealProver.set_circuit_params
    simp only [ite_pm_apply, bind_pure, bind_getS, pure_apply]
    rw [hb]
    simp
  · intro s pk vk hb
    unfold RealProver.set_circuit_params
    simp only [ite_pm_apply, bind_pure, bind_getS, bind_modifyS,
      modifyS_apply, pure_apply]
    rw [hb]
    simp
  · intro s pk
    unfold RealProver.set_circuit_params
    simp only [ite_pm_apply, bind_pure, bind_getS, Option.isSome_some,
      Option.isSome_none, Bool.and_false, Bool.false_eq_true, if_false]
  · intro s vk
    unfold RealProver.set_circuit_params
    simp only [ite_pm_apply, bind_pure, bind_getS, Option.isSome_some,
      Option.isSome_none, Bool.false_and, Bool.false_eq_true, if_false]

/-- Claim C9 witness: the four amended parts applied at concrete provers —
both keys cached, only the proving key cached, and the two single-override
cases on a fresh prover. -/
theorem C9_witness :
    RealProver.set_circuit_params (some otherPK) (some otherVK) loadedState =
      PRes.ok () loadedState ∧
    RealProver.set_circuit_params (some otherPK) (some otherVK) pkOnlyState =
      PRes.ok ()
        { pkOnlyState with
          circuit_proving_key := some otherPK,
          circuit_verifying_key := some otherVK } ∧
    RealProver.set_circuit_params (some otherPK) none freshState =
      RealProver.set_circuit_params none none freshState ∧
    RealProver.set_circuit_params none (some otherVK) freshState =
      RealProver.set_circuit_params none none freshState :=
  ⟨C9_override_semantics.1 loadedState (some otherPK) (some otherVK)
      (by decide),
    C9_override_semantics.2.1 pkOnlyState otherPK otherVK (by decide),
    C9_override_semantics.2.2.1 freshState otherPK,
    C9_override_semantics.2.2.2 freshState otherVK⟩

/-- Claim C10: `RealProver::verifier` panics when called before a
successful load — with the `ok_or` message when the general parameters are
missing, and with the `Option::unwrap` panic when the verifier parameters
or the verifying key are missing — and when all three artifacts are in
memory it returns, without modifying the prover, a `RealVerifier` holding
clones of exactly the prover's general parameters, verifier parameters and
verifying key (plus the derived circuit name, directory and instance
arity). -/
theorem C10_verifier_requires_load :
    (∀ s : ProverState, s.general_params = none →
      RealProver.verifier s =
        PRes.crash "params not available, please execute prover.load() first") ∧
    (∀ (s : ProverState) (gp : ParamsKZG), s.general_params = some gp →
      s.verifier_params = none →
      RealProver.verifier s =
        PRes.crash "called Option::unwrap on a None value") ∧
    (∀ (s : ProverState) (gp vp : ParamsKZG), s.general_params = some gp →
      s.verifier_params = some vp →
      s.circuit_verifying_key = none →
      RealProver.verifier s =
        PRes.crash "called Option::unwrap on a None value") ∧
    (∀ (s : ProverState) (gp vp : ParamsKZG) (vk : VerifyingKey),
      s.general_params = some gp →
      s.verifier_params = some vp →
      s.circuit_verifying_key = some vk →
      RealProver.verifier s =
        PRes.ok
          { circuit_name := derive_circuit_name s.circuit,
            dir_path := s.dir_path,
            num_instance := [s.circuit.inst.length],
            general_params := gp,
            verifier_params := vp,
            circuit_verifying_key := vk } s) := by
  refine ⟨?_, ?_, ?_, ?_⟩
  · intro s h
    unfold RealProver.verifier
    simp only [bind_getS, bind_unwrapO_none, bind_unwrapO_some, h]
  · intro s gp hg h
    unfold RealProver.verifier
    simp only [bind_getS, bind_unwrapO_none, bind_unwrapO_some, hg, h]
  · intro s gp vp hg hv h
    unfold RealProver.verifier
    simp only [bind_getS, bind_unwrapO_none, bind_unwrapO_some, hg, hv, h]
  · intro s gp vp vk hg hv hk
    unfold RealProver.verifier
    simp only [bind_getS, bind_unwrapO_none, bind_unwrapO_some, hg, hv, hk,
      pure_apply]

/-- Claim C10 witness: the four parts applied at concrete provers in the
four loading stages. -/
theorem C10_witness :
    RealProver.verifier freshState =
      PRes.crash "params not available, please execute prover.load() first" ∧
    RealProver.verifier gpOnlyState =
      PRes.crash "called Option::unwrap on a None value" ∧
    RealProver.verifier gvOnlyState =
      PRes.crash "called Option::unwrap on a None value" ∧
    RealProver.verifier loadedState =
      PRes.ok
        { circuit_name := derive_circuit_name loadedState.circuit,
          dir_path := loadedState.dir_path,
          num_instance := [loadedState.circuit.inst.length],
          general_params := sampleParams,
          verifier_params := sampleParams.verifier_params,
          circuit_verifying_key := sampleVK } loadedState :=
  ⟨C10_verifier_requires_load.1 freshState rfl,
    C10_verifier_requires_load.2.1 gpOnlyState sampleParams rfl rfl,
    C10_verifier_requires_load.2.2.1 gvOnlyState sampleParams
      sampleParams.verifier_params rfl rfl rfl,
    C10_verifier_requires_load.2.2.2 loadedState sampleParams
      sampleParams.verifier_params sampleVK rfl rfl rfl⟩

/-- Claim C8: with `write_to_file = false`, `generate_yul` is a pure
transform over the already-loaded artifacts: it performs no file writes
(the directory is returned unchanged; the verifier itself is taken by
shared reference and never mutated, which the embedding reflects by
`generate_yul` being a pure function of the verifier value), and the
returned source text is `yulSource` applied to exactly the loaded verifier
parameters, verifying key, and declared instance arity — and to nothing
else. -/
theorem C8_generate_yul_pure (v : RealVerifierState) (fs : FS) :
    v.generate_yul false fs =
      Except.ok
        (yulSource v.verifier_params v.circuit_verifying_key v.num_instance,
          fs) := rfl

/-- Claim C1: round trip.  For every circuit (hence every witness and its
extracted instance values), degree, and artifact directory in which the
four artifact files are absent and writable, `RealProver::run` returns `Ok`
with a proof and the circuit's instance values, the verifier built from the
same prover by `RealProver::verifier` holds the matching parameters and
verifying key, and `RealVerifier::run` on that proof and those instance
values returns `Ok`. -/
theorem C1_round_trip (c : Circuit) (k : Nat) (fs : FS)
    (hg : fs.read (FPath.kzgGeneralParams k) = none)
    (hgc : FPath.kzgGeneralParams k ∉ fs.failCreate)
    (hgw : FPath.kzgGeneralParams k ∉ fs.failWrite)
    (hv : fs.read (FPath.kzgVerifierParams k) = none)
    (hvc : FPath.kzgVerifierParams k ∉ fs.failCreate)
    (hvw : FPath.kzgVerifierParams k ∉ fs.failWrite)
    (hvk : fs.read (FPath.verifyingKey (derive_circuit_name c) k) = none)
    (hvkc : FPath.verifyingKey (derive_circuit_name c) k ∉ fs.failCreate)
    (hvkw : FPath.verifyingKey (derive_circuit_name c) k ∉ fs.failWrite)
    (hpk : fs.read (FPath.provingKey (derive_circuit_name c) k) = none)
    (hpkc : FPath.provingKey (derive_circuit_name c) k ∉ fs.failCreate)
    (hpkw : FPath.provingKey (derive_circuit_name c) k ∉ fs.failWrite) :
    ∃ (pf : ProofData) (s' : ProverState) (v : RealVerifierState),
      RealProver.run false (RealProver.from c k fs) =
        PRes.ok (pf, c.inst) s' ∧
      RealProver.verifier s' = PRes.ok v s' ∧
      v.run pf c.inst = Except.ok () := by
  unfold RealProver.run RealProver.load RealProver.set_general_params
    RealProver.set_verifier_params RealProver.set_circuit_params
    RealProver.from
  simp only [bind_assoc_pm, bind_ite_pm, ite_pm_apply, bind_pure, bind_getS,
    bind_fileOpen, bind_recordEvent, bind_fileCreate, bind_fileWrite,
    bind_unwrapO_some, bind_unwrapO_none, bind_read_params_custom_params,
    bind_read_vk_unwrap_vk, bind_read_pk_unwrap_pk, bind_modifyS,
    modifyS_apply, pure_apply, ensure_dir_exists, FS.read_writeFile,
    FS.failCreate_writeFile, FS.failWrite_writeFile, reduceCtorEq,
    Option.isSome_none, Option.isSome_some, Bool.false_eq_true, if_false,
    Bool.and_false, Bool.false_and, hg, hgc, hgw, hv, hvc, hvw, hvk, hvkc,
    hvkw, hpk, hpkc, hpkw]
  refine ⟨_, _,
    { circuit_name := derive_circuit_name c, dir_path := "./out",
      num_instance := [c.inst.length],
      general_params := ParamsKZG.setup k 2,
      verifier_params := (ParamsKZG.setup k 2).verifier_params,
      circuit_verifying_key := keygen_vk (ParamsKZG.setup k 2) c },
    rfl, ?_, ?_⟩
  · unfold RealProver.verifier
    simp only [bind_getS, bind_unwrapO_some, pure_apply]
  · unfold RealVerifierState.run verify_proof
    simp [create_proof, keygen_pk, keygen_vk]

/-- Claim C1 witness: the round trip at a concrete circuit and degree over
an empty directory. -/
theorem C1_witness :
    ∃ (pf : ProofData) (s' : ProverState) (v : RealVerifierState),
      RealProver.run false (RealProver.from sampleCircuit 3 emptyFS) =
        PRes.ok (pf, sampleCircuit.inst) s' ∧
      RealProver.verifier s' = PRes.ok v s' ∧
      v.run pf sampleCircuit.inst = Except.ok () :=
  C1_round_trip sampleCircuit 3 emptyFS rfl (by decide) (by decide) rfl
    (by decide) (by decide) rfl (by decide) (by decide) rfl (by decide)
    (by decide)

end ZkPox
